import Mathlib

/-!
# Shallow embedding of `hal/audio_hw.c` (android-generic/platform_hardware_libaudio)

This file models the data-path engine of the audio HAL shim: the output
write pacing and threshold control, the input read path with its mute
handling, the buffer-provider bridge feeding the resampler, the
preprocessing chunk loop, and the cross-direction rate-family exclusion
performed when a stream starts.

Machine integers are modelled as `Int`/`Nat`. C signed division (which
truncates toward zero) is rendered with `Int.tdiv`; all divisions proved
about here happen on non-negative operands, where every convention
agrees. External collaborators (tinyalsa, the resampler, effects) are
modelled as environments supplying their observable results.
-/

namespace AudioHw

/-! ## Constants (lines 46-67 of `audio_hw.c`) -/

def OUT_PERIOD_SIZE : ℤ := 512
def OUT_SHORT_PERIOD_COUNT : ℤ := 2
def OUT_LONG_PERIOD_COUNT : ℤ := 8
def OUT_SAMPLING_RATE : ℤ := 48000

def IN_PERIOD_SIZE : ℤ := 1024
def IN_PERIOD_COUNT : ℤ := 4
def IN_SAMPLING_RATE : ℤ := 48000

def SCO_PERIOD_SIZE : ℤ := 256
def SCO_PERIOD_COUNT : ℤ := 4
def SCO_SAMPLING_RATE : ℤ := 8000

/-- minimum sleep time in out_write() when write threshold is not reached -/
def MIN_WRITE_SLEEP_US : ℤ := 2000

/-- `(OUT_PERIOD_SIZE * OUT_SHORT_PERIOD_COUNT * 1000000) / OUT_SAMPLING_RATE` -/
def MAX_WRITE_SLEEP_US : ℤ :=
  (OUT_PERIOD_SIZE * OUT_SHORT_PERIOD_COUNT * 1000000).tdiv OUT_SAMPLING_RATE

/-- The largest value `write_threshold` ever takes on a non-SCO route:
one long disposition, `OUT_PERIOD_SIZE * OUT_LONG_PERIOD_COUNT` frames. -/
def WRITE_THRESHOLD_MAX : ℤ := OUT_PERIOD_SIZE * OUT_LONG_PERIOD_COUNT

/-- errno values used by the code (`-ENOSYS`, `-EPIPE`, `-ENODEV`, `-ENOMEM`, `-EINVAL`). -/
def ENOSYS : ℤ := 38
def EPIPE : ℤ := 32
def ENODEV : ℤ := 19
def ENOMEM : ℤ := 12
def EINVAL : ℤ := 22

/-- Android audio device bitmask constants used by the routing checks. -/
def AUDIO_DEVICE_OUT_ALL_SCO : ℕ := 0x70
def AUDIO_DEVICE_OUT_AUX_DIGITAL : ℕ := 0x400
def AUDIO_DEVICE_IN_ALL_SCO : ℕ := 0x8

/-! ## PCM configurations (lines 69-100) -/

inductive PcmFormat where
  | s16 | s32 | s8
deriving DecidableEq, Repr

inductive BufferType where
  | unknown | short | long
deriving DecidableEq, Repr

structure PcmConfig where
  channels : ℕ
  rate : ℕ
  period_size : ℕ
  period_count : ℕ
  format : PcmFormat
deriving DecidableEq, Repr

def pcm_config_out : PcmConfig :=
  { channels := 2, rate := 48000, period_size := 512, period_count := 8, format := .s16 }

def pcm_config_in : PcmConfig :=
  { channels := 2, rate := 48000, period_size := 1024, period_count := 4, format := .s16 }

def pcm_config_sco : PcmConfig :=
  { channels := 1, rate := 8000, period_size := 256, period_count := 4, format := .s16 }

/-! ## The pacing loop of `out_write` (lines 1059-1092)

One iteration: query the hardware timestamp; on failure set
`kernel_frames = 0` and break.  Otherwise `kernel_frames` is the device
buffer size minus the available frames; while it exceeds
`cur_write_threshold`, sleep proportionally to the excess, with the
`MIN_WRITE_SLEEP_US` floor and `MAX_WRITE_SLEEP_US` cumulative cap.

`avail` gives the frame count written by `pcm_get_htimestamp` in each
iteration (`none` = the query failed).  The result is the list of
`usleep` durations actually issued and the final `kernel_frames`. -/

def paceLoop (avail : ℕ → Option ℤ) (buffer_size rate cur_write_threshold : ℤ) :
    ℕ → ℕ → ℤ → List ℤ × ℤ
  | 0, _, _ => ([], 0)
  | fuel + 1, i, total_sleep_time_us =>
    match avail i with
    | none => ([], 0)
    | some av =>
      let kernel_frames := buffer_size - av
      if kernel_frames > cur_write_threshold then
        let sleep_time_us := ((kernel_frames - cur_write_threshold) * 1000000).tdiv rate
        if sleep_time_us < MIN_WRITE_SLEEP_US then
          ([], kernel_frames)
        else
          let total' := total_sleep_time_us + sleep_time_us
          let issued :=
            if total' > MAX_WRITE_SLEEP_US then
              MAX_WRITE_SLEEP_US - (total' - sleep_time_us)
            else sleep_time_us
          -- do-while condition: kernel_frames > cur (holds here) && total <= MAX
          if total' ≤ MAX_WRITE_SLEEP_US then
            let r := paceLoop avail buffer_size rate cur_write_threshold fuel (i + 1) total'
            (issued :: r.1, r.2)
          else
            ([issued], kernel_frames)
      else
        ([], kernel_frames)

/-! ## Threshold adjustment after pacing (lines 1101-1116) -/

def adjustThreshold (period_size write_threshold cur_write_threshold kernel_frames : ℤ) : ℤ :=
  if cur_write_threshold > write_threshold then
    let c := cur_write_threshold - period_size.tdiv 4
    if c < write_threshold then write_threshold else c
  else if cur_write_threshold < write_threshold then
    let c := cur_write_threshold + period_size.tdiv 4
    if c > write_threshold then write_threshold else c
  else if kernel_frames < write_threshold ∧
      write_threshold - kernel_frames > period_size * OUT_SHORT_PERIOD_COUNT then
    (kernel_frames.tdiv period_size + 1) * period_size + period_size.tdiv 4
  else
    cur_write_threshold

/-! ## Streams and the device (lines 102-162) -/

structure StreamOut where
  pcm : Bool                     -- `out->pcm != NULL`
  pcm_config : PcmConfig
  standby : Bool
  resampler : Bool
  buffer_frames : ℕ
  write_threshold : ℤ
  cur_write_threshold : ℤ
  buffer_type : BufferType
deriving DecidableEq, Repr

structure StreamIn where
  pcm : Bool                     -- `in->pcm != NULL`
  pcm_config : PcmConfig
  standby : Bool
  requested_rate : ℕ
  resampler : Bool
  buffer : List ℤ                -- contents of `in->buffer` as 16-bit samples
  buffer_size : ℕ                -- bytes
  frames_in : ℕ
  read_status : ℤ
  num_preprocessors : ℕ
  proc_frames_in : ℕ
  proc_out_frames : ℕ
deriving DecidableEq, Repr

structure AudioDevice where
  out_device : ℕ
  in_device : ℕ
  mic_mute : Bool
  screen_off : Bool
  active_out : Option StreamOut
  active_in : Option StreamIn
deriving DecidableEq, Repr

def bytes_per_sample : PcmFormat → ℕ
  | .s16 => 2
  | .s32 => 4
  | .s8 => 1

/-- `pcm_frames_to_bytes`: frames × channels × bytes-per-sample. -/
def pcm_frames_to_bytes (cfg : PcmConfig) (frames : ℕ) : ℕ :=
  frames * cfg.channels * bytes_per_sample cfg.format

/-- Observable events emitted by the start/standby transitions, used to
state ordering properties. -/
inductive Ev where
  | inStandby    -- `do_in_standby` closed the input PCM and cleared `active_in`
  | outStandby   -- `do_out_standby` closed the output PCM and cleared `active_out`
  | inPcmOpen    -- `my_pcm_open` called for the input direction
  | outPcmOpen   -- `my_pcm_open` called for the output direction
deriving DecidableEq, Repr

/-! ## Standby transitions (lines 451-500) -/

def do_out_standby (adev : AudioDevice) (out : StreamOut) :
    AudioDevice × StreamOut × List Ev :=
  if out.standby = false then
    ({ adev with active_out := none },
     { out with pcm := false, resampler := false, standby := true },
     [Ev.outStandby])
  else (adev, out, [])

def do_in_standby (adev : AudioDevice) (inS : StreamIn) :
    AudioDevice × StreamIn × List Ev :=
  if inS.standby = false then
    ({ adev with active_in := none },
     { inS with pcm := false, resampler := false, proc_out_frames := 0, standby := true },
     [Ev.inStandby])
  else (adev, inS, [])

/-! ## Stream start (lines 502-647) -/

/-- Rate-family compatibility check guarding the cross-direction standby
(lines 534-537 and 603-606): the freshly selected rate and the other
direction's negotiated rate must not straddle the 8000/11025 families. -/
def rateIncompatible (openRate activeRate : ℕ) : Bool :=
  (openRate % 8000 == 0 && activeRate % 8000 != 0) ||
  (openRate % 11025 == 0 && activeRate % 11025 != 0)

/-- Environment for a stream start: result of `my_pcm_open`
(`none` = returned NULL, `some false` = not ready, `some true` = ok). -/
structure StartEnv where
  pcm_open : Option Bool

structure StartOutResult where
  ret : ℤ
  adev : AudioDevice
  out : StreamOut
  inAfter : Option StreamIn   -- the input stream object after the call, if one was active
  trace : List Ev
deriving Repr

structure StartInResult where
  ret : ℤ
  adev : AudioDevice
  inS : StreamIn
  outAfter : Option StreamOut
  trace : List Ev
deriving Repr

def start_output_stream (env : StartEnv) (adev0 : AudioDevice) (out0 : StreamOut) :
    StartOutResult :=
  let sco := adev0.out_device &&& AUDIO_DEVICE_OUT_ALL_SCO ≠ 0
  let out1 :=
    if sco then { out0 with pcm_config := pcm_config_sco }
    else { out0 with pcm_config := pcm_config_out, buffer_type := BufferType.unknown }
  let step2 : AudioDevice × Option StreamIn × List Ev :=
    match adev0.active_in with
    | some inS =>
      if rateIncompatible out1.pcm_config.rate inS.pcm_config.rate then
        let r := do_in_standby adev0 inS
        (r.1, some r.2.1, r.2.2)
      else (adev0, some inS, [])
    | none => (adev0, none, [])
  let adev1 := step2.1
  let trace := step2.2.2 ++ [Ev.outPcmOpen]
  match env.pcm_open with
  | none => { ret := -ENODEV, adev := adev1, out := out1, inAfter := step2.2.1, trace := trace }
  | some false => { ret := -ENOMEM, adev := adev1, out := out1, inAfter := step2.2.1, trace := trace }
  | some true =>
    let out2 := { out1 with pcm := true }
    let out3 :=
      -- resampler when the stream rate (out_get_sample_rate = pcm_config_out.rate)
      -- differs from the negotiated PCM rate
      if pcm_config_out.rate ≠ out2.pcm_config.rate then
        { out2 with
          resampler := true
          buffer_frames := pcm_config_out.period_size * out2.pcm_config.rate /
            pcm_config_out.rate + 1 }
      else out2
    { ret := 0, adev := { adev1 with active_out := some out3 }, out := out3,
      inAfter := step2.2.1, trace := trace }

def start_input_stream (env : StartEnv) (adev0 : AudioDevice) (in0 : StreamIn) :
    StartInResult :=
  let sco := adev0.in_device &&& AUDIO_DEVICE_IN_ALL_SCO ≠ 0
  let in1 :=
    if sco then { in0 with pcm_config := pcm_config_sco }
    else { in0 with pcm_config := pcm_config_in }
  let step2 : AudioDevice × Option StreamOut × List Ev :=
    match adev0.active_out with
    | some outS =>
      if rateIncompatible in1.pcm_config.rate outS.pcm_config.rate then
        let r := do_out_standby adev0 outS
        (r.1, some r.2.1, r.2.2)
      else (adev0, some outS, [])
    | none => (adev0, none, [])
  let adev1 := step2.1
  let trace := step2.2.2 ++ [Ev.inPcmOpen]
  match env.pcm_open with
  | none => { ret := -ENODEV, adev := adev1, inS := in1, outAfter := step2.2.1, trace := trace }
  | some false => { ret := -ENOMEM, adev := adev1, inS := in1, outAfter := step2.2.1, trace := trace }
  | some true =>
    let in2 := { in1 with pcm := true }
    let in3 :=
      if in2.requested_rate ≠ in2.pcm_config.rate then { in2 with resampler := true }
      else in2
    let bs := pcm_frames_to_bytes in3.pcm_config in3.pcm_config.period_size
    let bs := if in3.pcm_config.format = PcmFormat.s8 then bs * 2 else bs
    let in4 := { in3 with buffer_size := bs, frames_in := 0 }
    { ret := 0, adev := { adev1 with active_in := some in4 }, inS := in4,
      outAfter := step2.2.1, trace := trace }

/-! ## Buffer provider bridge (lines 649-720) -/

/-- The in-place right-channel discard of lines 691-697:
`buffer[i] = buffer[i*2]` for `1 ≤ i < frames`; since each read index is
ahead of every already-written index, this equals taking every second
sample of the original buffer on `[0, frames)`. -/
def discard_right (buf : List ℤ) (frames : ℕ) : List ℤ :=
  (List.range buf.length).map fun i =>
    if i < frames then buf.getD (2 * i) 0 else buf.getD i 0

/-- Environment for one `get_next_buffer` call: the status returned by
`pcm_read` and, on success, one period of samples as 16-bit values after
the in-place widening done by `memcpy_by_audio_format`. -/
structure GnbEnv where
  read_status : ℤ
  samples : List ℤ

structure GnbResult where
  status : ℤ
  frame_count : ℕ
  offset : Option ℕ     -- position of `buffer->i16` inside `in->buffer`; `none` = raw NULL
  inS : StreamIn
  did_pcm_read : Bool
  read_size : ℕ         -- bytes passed to `pcm_read` (0 if no read was issued)
deriving Repr

def get_next_buffer (env : GnbEnv) (inS : StreamIn) (frame_count_req : ℕ) : GnbResult :=
  if inS.pcm = false then
    { status := -ENODEV, frame_count := 0, offset := none,
      inS := { inS with read_status := -ENODEV }, did_pcm_read := false, read_size := 0 }
  else if inS.frames_in = 0 then
    let read_size :=
      if inS.pcm_config.format = PcmFormat.s8 then inS.buffer_size / 2 else inS.buffer_size
    if env.read_status ≠ 0 then
      { status := env.read_status, frame_count := 0, offset := none,
        inS := { inS with read_status := env.read_status }, did_pcm_read := true,
        read_size := read_size }
    else
      let buf :=
        if inS.pcm_config.channels = 2 then
          discard_right env.samples inS.pcm_config.period_size
        else env.samples
      let inS' :=
        { inS with
          read_status := 0
          buffer := buf
          frames_in := inS.pcm_config.period_size }
      let fc := if frame_count_req > inS'.frames_in then inS'.frames_in else frame_count_req
      { status := inS'.read_status, frame_count := fc,
        offset := some (inS'.pcm_config.period_size - inS'.frames_in),
        inS := inS', did_pcm_read := true, read_size := read_size }
  else
    let fc := if frame_count_req > inS.frames_in then inS.frames_in else frame_count_req
    { status := inS.read_status, frame_count := fc,
      offset := some (inS.pcm_config.period_size - inS.frames_in),
      inS := inS, did_pcm_read := false, read_size := 0 }

def release_buffer (inS : StreamIn) (frame_count : ℕ) : StreamIn :=
  { inS with frames_in := inS.frames_in - frame_count }

/-! ## Preprocessing pipeline (`process_frames`, lines 760-857) -/

/-- Environment for `process_frames`: per loop iteration `i`, the return
value of `read_frames` (which on success delivers exactly the frame count
it was asked for) and the frame counts the effect chain reports consumed
and produced through `in_buf.frameCount` / `out_buf.frameCount`. -/
structure PfEnv where
  read_result : ℕ → ℤ
  effect : ℕ → ℕ × ℕ

structure PfState where
  proc_frames_in : ℕ
  proc_out_frames : ℕ
deriving DecidableEq, Repr

/-- The `while (frames_wr < frames)` loop body of `process_frames`. -/
def pfLoop (env : PfEnv) (frames_rq frames : ℕ) :
    ℕ → ℕ → ℤ → PfState → ℤ × PfState
  | fuel, i, frames_wr, st =>
    if frames_wr < (frames : ℤ) then
      match fuel with
      | 0 => (frames_wr, st)
      | fuel + 1 =>
        let step1 : Except ℤ PfState :=
          if st.proc_frames_in < frames_rq then
            let frames_rd := env.read_result i
            if frames_rd < 0 then Except.error frames_rd
            else Except.ok { st with proc_frames_in := st.proc_frames_in + frames_rd.toNat }
          else Except.ok st
        match step1 with
        | .error e => (e, st)      -- `frames_wr = frames_rd; break;`
        | .ok st =>
          let consumed := (env.effect i).1
          let produced := (env.effect i).2
          let st := { st with proc_frames_in := st.proc_frames_in - consumed }
          if produced = 0 then
            pfLoop env frames_rq frames fuel (i + 1) frames_wr st
          else if frames_wr + (produced : ℤ) ≤ (frames : ℤ) then
            pfLoop env frames_rq frames fuel (i + 1) (frames_wr + produced) st
          else
            let st := { st with
              proc_out_frames := produced - ((frames : ℤ) - frames_wr).toNat }
            pfLoop env frames_rq frames fuel (i + 1) (frames : ℤ) st
    else (frames_wr, st)

def process_frames (env : PfEnv) (requested_rate : ℕ) (st0 : PfState) (frames fuel : ℕ) :
    ℤ × PfState :=
  let proc_frames_count := requested_rate / 100
  let frames_rq := (frames + (proc_frames_count - 1)) / proc_frames_count * proc_frames_count
  -- drain frames carried over from the previous run (lines 775-781)
  let init : ℤ × PfState :=
    if st0.proc_out_frames ≠ 0 then
      ((st0.proc_out_frames : ℤ), { st0 with proc_out_frames := 0 })
    else (0, st0)
  pfLoop env frames_rq frames fuel 0 init.1 init.2

/-! ## `in_read` (lines 1291-1340)

The composite effect of the capture call (`process_frames` when
preprocessors are attached, `read_frames` otherwise) is supplied by the
environment: its return status and the caller-buffer contents it leaves
behind.  `audio_stream_in_frame_size` is 2 bytes: mono
(`in_get_channels`), 16-bit (`in_get_format`). -/

def in_frame_size : ℕ := 2

structure InReadEnv where
  start_result : ℤ       -- `start_input_stream` result, consulted when standing by
  capture_status : ℤ     -- return of `process_frames` / `read_frames`
  capture_buf : List ℤ   -- caller buffer contents after that call

structure InReadResult where
  returned : ℕ           -- the byte count `in_read` returns
  buffer : List ℤ        -- caller buffer contents on return
  slept : Bool           -- whether the backpressure `usleep` ran
  standby : Bool
deriving DecidableEq, Repr

def in_read (env : InReadEnv) (mic_mute standby : Bool) (buf0 : List ℤ) (bytes : ℕ) :
    InReadResult :=
  let ret : ℤ := if standby then env.start_result else 0
  let standby' := if standby ∧ ret = 0 then false else standby
  if ret < 0 then
    { returned := bytes, buffer := buf0, slept := true, standby := standby' }
  else
    let ret := env.capture_status
    let ret := if ret > 0 then 0 else ret
    let buf :=
      if ret = 0 ∧ mic_mute then List.replicate (bytes / in_frame_size) 0
      else env.capture_buf
    { returned := bytes, buffer := buf, slept := ret < 0, standby := standby' }

/-! ## `out_write` (lines 983-1149) -/

/-- The backpressure sleep of lines 1144-1145:
`bytes * 1000000 / audio_stream_out_frame_size(stream) / out_get_sample_rate(...)`,
with frame size 4 (stereo 16-bit) and rate `pcm_config_out.rate`. -/
def out_err_sleep_us (bytes : ℕ) : ℕ := bytes * 1000000 / 4 / 48000

/-- The buffer-disposition recomputation of lines 1020-1033 (entered only
when not on SCO and the disposition changed). -/
def outUpdateBufferType (bt_new : BufferType) (out : StreamOut) : StreamOut :=
  let period_count :=
    if bt_new = BufferType.long then OUT_LONG_PERIOD_COUNT else OUT_SHORT_PERIOD_COUNT
  let wt := (out.pcm_config.period_size : ℤ) * period_count
  let cur :=
    if out.buffer_type = BufferType.unknown then wt else out.cur_write_threshold
  { out with write_threshold := wt, cur_write_threshold := cur, buffer_type := bt_new }

structure OutWriteEnv where
  start : StartEnv
  avail : ℕ → Option ℤ        -- `pcm_get_htimestamp` per pacing iteration
  resampled_frames : ℕ        -- `out_frames` produced by `resample_from_input`
  write_result : ℤ            -- `pcm_write` return value

structure OutWriteResult where
  returned : ℤ
  pace_sleeps : List ℤ
  kernel_frames : ℤ
  err_sleep_us : Option ℕ
  write_size_bytes : ℕ        -- byte count passed to `pcm_write`
  adev : AudioDevice
  out : StreamOut
deriving Repr

/-- Lines 1013-1014: the buffering disposition chosen for this call —
long when the screen is off and no input is active, otherwise short. -/
def outBtNew (adev : AudioDevice) : BufferType :=
  if adev.screen_off ∧ adev.active_in.isNone then BufferType.long
  else BufferType.short

/-- The state `out2` of lines 1020-1033 in the non-SCO case: the output
stream after the disposition change (if any) recomputed
`write_threshold`.  Named so the threshold theorems can refer to it. -/
def out2_of (adev : AudioDevice) (out1 : StreamOut) : StreamOut :=
  if outBtNew adev ≠ out1.buffer_type then outUpdateBufferType (outBtNew adev) out1
  else out1

/-- The `kernel_frames` value the pacing loop of lines 1065-1092 leaves
behind, on the stream state `o2` current when pacing starts. -/
def paceKernel (env : OutWriteEnv) (fuel : ℕ) (o2 : StreamOut) : ℤ :=
  (paceLoop env.avail ((o2.pcm_config.period_size * o2.pcm_config.period_count : ℕ) : ℤ)
    (o2.pcm_config.rate : ℤ) o2.cur_write_threshold fuel 0 0).2

/-- The body of `out_write` once the stream is running (everything after
the lazy-start prelude, lines 1013-1148). -/
def out_write_active (env : OutWriteEnv) (fuel : ℕ) (adev : AudioDevice)
    (out1 : StreamOut) (bytes : ℕ) : OutWriteResult :=
  let frame_size := 4          -- audio_stream_out_frame_size: stereo 16-bit
  let in_frames := bytes / frame_size
  let buffer_type := outBtNew adev
  let sco_on := adev.out_device &&& AUDIO_DEVICE_OUT_ALL_SCO ≠ 0
  let out2 :=
    if ¬sco_on ∧ buffer_type ≠ out1.buffer_type then outUpdateBufferType buffer_type out1
    else out1
  -- channel reduction (lines 1036-1046): stereo source onto a mono device
  let frame_size := if 2 > out2.pcm_config.channels then frame_size / 2 else frame_size
  let out_frames :=
    if pcm_config_out.rate ≠ out2.pcm_config.rate then env.resampled_frames else in_frames
  let pace :=
    if ¬sco_on then
      paceLoop env.avail
        ((out2.pcm_config.period_size * out2.pcm_config.period_count : ℕ) : ℤ)
        (out2.pcm_config.rate : ℤ) out2.cur_write_threshold fuel 0 0
    else ([], 0)
  let out3 :=
    if ¬sco_on then
      { out2 with
        cur_write_threshold :=
          adjustThreshold (out2.pcm_config.period_size : ℤ) out2.write_threshold
            out2.cur_write_threshold pace.2 }
    else out2
  let write_size :=
    match out3.pcm_config.format with
    | .s32 => out_frames * frame_size * 2
    | .s8 => out_frames * frame_size / 2
    | .s16 => out_frames * frame_size
  let ret := env.write_result
  if ret = -EPIPE then
    { returned := ret, pace_sleeps := pace.1, kernel_frames := pace.2,
      err_sleep_us := none, write_size_bytes := write_size, adev := adev, out := out3 }
  else
    { returned := (bytes : ℤ), pace_sleeps := pace.1, kernel_frames := pace.2,
      err_sleep_us := if ret ≠ 0 then some (out_err_sleep_us bytes) else none,
      write_size_bytes := write_size, adev := adev, out := out3 }

def out_write (env : OutWriteEnv) (fuel : ℕ) (adev0 : AudioDevice) (out0 : StreamOut)
    (bytes : ℕ) : OutWriteResult :=
  if out0.standby then
    let r := start_output_stream env.start adev0 out0
    if r.ret ≠ 0 then
      -- `goto exit` with ret ≠ 0: backpressure sleep, then return `bytes`
      { returned := (bytes : ℤ), pace_sleeps := [], kernel_frames := 0,
        err_sleep_us := some (out_err_sleep_us bytes), write_size_bytes := 0,
        adev := r.adev, out := r.out }
    else out_write_active env fuel r.adev { r.out with standby := false } bytes
  else out_write_active env fuel adev0 out0 bytes

/-! ## The rejected rate/format setters (lines 866-890, 1181-1216) -/

def out_set_sample_rate (s : StreamOut) (_rate : ℕ) : ℤ × StreamOut := (-ENOSYS, s)

def out_set_format (s : StreamOut) (_format : PcmFormat) : ℤ × StreamOut := (-ENOSYS, s)

def in_set_sample_rate (s : StreamIn) (_rate : ℕ) : ℤ × StreamIn := (0, s)

def in_set_format (s : StreamIn) (_format : PcmFormat) : ℤ × StreamIn := (-ENOSYS, s)

/-! ## Concrete fixtures used by witnesses and counterexamples -/

def sampleOut : StreamOut :=
  { pcm := true, pcm_config := pcm_config_out, standby := false, resampler := false,
    buffer_frames := 0, write_threshold := 1024, cur_write_threshold := 1024,
    buffer_type := BufferType.short }

def sampleIn : StreamIn :=
  { pcm := true, pcm_config := pcm_config_in, standby := false, requested_rate := 44100,
    resampler := true, buffer := [], buffer_size := 4096, frames_in := 0, read_status := 0,
    num_preprocessors := 0, proc_frames_in := 0, proc_out_frames := 0 }

def sampleDev : AudioDevice :=
  { out_device := 2, in_device := 4, mic_mute := false, screen_off := false,
    active_out := some sampleOut, active_in := none }

/-- A mic-muted capture that succeeds, leaving non-zero data behind. -/
def muteOkEnv : InReadEnv :=
  { start_result := 0, capture_status := 0, capture_buf := [7, 7] }

/-- A mic-muted capture that fails with `-EIO`, leaving stale non-zero data. -/
def muteFailEnv : InReadEnv :=
  { start_result := 0, capture_status := -5, capture_buf := [3, 4] }

/-- A device write failing with underrun. -/
def underrunEnv : OutWriteEnv :=
  { start := { pcm_open := some true }, avail := fun _ => some 4096,
    resampled_frames := 0, write_result := -EPIPE }

/-- A device write failing with an error other than underrun. -/
def otherErrEnv : OutWriteEnv :=
  { start := { pcm_open := some true }, avail := fun _ => some 4096,
    resampled_frames := 0, write_result := -5 }

/-- A successful one-period device read delivering constant samples. -/
def gnbOkEnv : GnbEnv := { read_status := 0, samples := List.replicate 4096 1 }

/-- An input session negotiated at 44100 Hz (the `my_pcm_open` retry rate). -/
def in44 : StreamIn := { sampleIn with pcm_config := { pcm_config_in with rate := 44100 } }

/-- An output session negotiated at 44100 Hz. -/
def out44 : StreamOut := { sampleOut with pcm_config := { pcm_config_out with rate := 44100 } }

/-- Device state with an active 44100 Hz input and no active output. -/
def devActiveIn : AudioDevice := { sampleDev with active_in := some in44, active_out := none }

/-- Device state with an active 44100 Hz output and no active input. -/
def devActiveOut : AudioDevice := { sampleDev with active_out := some out44, active_in := none }


/-- A preprocessing environment whose reads succeed and whose effect chain
consumes and produces one full 10 ms chunk (480 frames at 48 kHz) per call. -/
def pfOkEnv : PfEnv := { read_result := fun _ => 480, effect := fun _ => (480, 480) }


/-- Pacing environment: the first timestamp query reports 2064 available
frames (2032 queued), the next reports 2832 (1264 queued); the device
write then succeeds. -/
def paceCxEnv : OutWriteEnv :=
  { start := { pcm_open := some true },
    avail := fun i => if i = 0 then some 2064 else some 2832,
    resampled_frames := 0, write_result := 0 }

/-! ## Theorems -/

/-- **C2**: for every `in_read(buffer, bytes)` call, the return value is
exactly `bytes`, whether the lazy start fails, the device read fails, or
the preprocessing pipeline reports an error — the caller never observes a
partial or failed capture through the return value. -/
theorem in_read_returns_requested_bytes (env : InReadEnv) (mic_mute standby : Bool)
    (buf0 : List ℤ) (bytes : ℕ) :
    (in_read env mic_mute standby buf0 bytes).returned = bytes := by
  unfold in_read
  dsimp only
  split
  · split <;> rfl
  · rfl

/-- **C8**: when the stream is active, the composite capture succeeds and
the device-wide mic-mute flag is set, `in_read` zeroes the caller's
entire buffer, regardless of the captured content. -/
theorem in_read_mute_zeroes_buffer (env : InReadEnv) (buf0 : List ℤ) (bytes : ℕ)
    (hok : 0 ≤ env.capture_status) :
    (in_read env true false buf0 bytes).buffer = List.replicate (bytes / in_frame_size) 0 := by
  unfold in_read
  rcases hok.lt_or_eq with h | h
  · simp [h, h.le]
  · simp [← h]

theorem in_read_mute_zeroes_buffer_witness :
    (in_read muteOkEnv true false [1, 2] 4).buffer = List.replicate 2 0 :=
  in_read_mute_zeroes_buffer muteOkEnv [1, 2] 4 (by decide)

/-- **C9**: if the capture call inside `in_read` fails while mic-mute is
set, the caller's buffer is left exactly as the failed capture left it
(not zeroed), yet `in_read` still returns the full requested byte
count. -/
theorem in_read_error_skips_mute_zeroing (env : InReadEnv) (buf0 : List ℤ) (bytes : ℕ)
    (herr : env.capture_status < 0) :
    (in_read env true false buf0 bytes).buffer = env.capture_buf ∧
    (in_read env true false buf0 bytes).returned = bytes := by
  unfold in_read
  have h1 : ¬ env.capture_status > 0 := by omega
  have h2 : env.capture_status ≠ 0 := by omega
  simp [h1, h2]

theorem in_read_error_skips_mute_zeroing_witness :
    (in_read muteFailEnv true false [9, 9] 4).buffer = [3, 4] ∧
    (in_read muteFailEnv true false [9, 9] 4).returned = 4 :=
  in_read_error_skips_mute_zeroing muteFailEnv [9, 9] 4 (by decide)

/-- **C3**: in `out_write`, a device write failing with `-EPIPE` returns
the error immediately with no compensating sleep; any other non-zero
device-write result triggers a backpressure sleep of
`bytes * 1000000 / frame_size / sample_rate` microseconds and the call
still returns the full requested byte count. -/
theorem out_write_error_paths (env : OutWriteEnv) (fuel : ℕ) (adev : AudioDevice)
    (out : StreamOut) (bytes : ℕ) (hsby : out.standby = false) :
    (env.write_result = -EPIPE →
      (out_write env fuel adev out bytes).returned = -EPIPE ∧
      (out_write env fuel adev out bytes).err_sleep_us = none) ∧
    (env.write_result ≠ -EPIPE → env.write_result ≠ 0 →
      (out_write env fuel adev out bytes).returned = (bytes : ℤ) ∧
      (out_write env fuel adev out bytes).err_sleep_us = some (out_err_sleep_us bytes)) := by
  unfold out_write
  simp only [hsby]
  constructor
  · intro hw
    unfold out_write_active
    simp [hw]
  · intro hw hnz
    unfold out_write_active
    simp [hw, hnz]

theorem out_write_error_paths_witness :
    ((out_write underrunEnv 4 sampleDev sampleOut 4096).returned = -EPIPE ∧
      (out_write underrunEnv 4 sampleDev sampleOut 4096).err_sleep_us = none) ∧
    ((out_write otherErrEnv 4 sampleDev sampleOut 4096).returned = (4096 : ℤ) ∧
      (out_write otherErrEnv 4 sampleDev sampleOut 4096).err_sleep_us =
        some (out_err_sleep_us 4096)) :=
  ⟨(out_write_error_paths underrunEnv 4 sampleDev sampleOut 4096 rfl).1 rfl,
   (out_write_error_paths otherErrEnv 4 sampleDev sampleOut 4096 rfl).2
     (by decide) (by decide)⟩

/-- **C6 counterexample**: `in_set_sample_rate` returns 0, not a non-zero
error code, so the claim that every set-sample-rate/set-format entry
point returns a non-zero error fails on the input stream's
set-sample-rate. -/
theorem in_set_sample_rate_returns_success :
    (in_set_sample_rate sampleIn 44100).1 = 0 := rfl

/-- **C6 (amended)**: `out_set_sample_rate`, `out_set_format` and
`in_set_format` each return `-ENOSYS` (non-zero) and leave the stream
unchanged for every argument; `in_set_sample_rate` also leaves the
stream unchanged but returns 0. -/
theorem set_rate_format_entry_points (so : StreamOut) (si : StreamIn) (r : ℕ)
    (f : PcmFormat) :
    out_set_sample_rate so r = (-ENOSYS, so) ∧
    out_set_format so f = (-ENOSYS, so) ∧
    in_set_format si f = (-ENOSYS, si) ∧
    in_set_sample_rate si r = (0, si) ∧
    (-ENOSYS : ℤ) ≠ 0 :=
  ⟨rfl, rfl, rfl, rfl, by decide⟩

/-- **C7**: on an active stream, the buffer-provider bridge issues a
physical read exactly when `frames_in` is zero (and then holds exactly
one hardware period); every `get_next_buffer` returns
`frame_count = min(requested, frames_in)` pointing at the unconsumed
tail `period_size - frames_in` of the last read; `release_buffer`
decreases `frames_in` by exactly the consumed count. -/
theorem buffer_provider_bridge (env : GnbEnv) (inS : StreamIn) (req : ℕ)
    (hpcm : inS.pcm = true) :
    ((get_next_buffer env inS req).did_pcm_read = true ↔ inS.frames_in = 0) ∧
    (get_next_buffer env inS req).frame_count =
      min req (get_next_buffer env inS req).inS.frames_in ∧
    ((get_next_buffer env inS req).status = 0 →
      (get_next_buffer env inS req).offset =
        some (inS.pcm_config.period_size - (get_next_buffer env inS req).inS.frames_in)) ∧
    ((get_next_buffer env inS req).did_pcm_read = true →
      (get_next_buffer env inS req).status = 0 →
      (get_next_buffer env inS req).inS.frames_in = inS.pcm_config.period_size) ∧
    (∀ s : StreamIn, ∀ c : ℕ, c ≤ s.frames_in →
      (release_buffer s c).frames_in + c = s.frames_in) := by
  have hrel : ∀ s : StreamIn, ∀ c : ℕ, c ≤ s.frames_in →
      (release_buffer s c).frames_in + c = s.frames_in := by
    intro s c hc
    simp only [release_buffer]
    omega
  have hmin : ∀ a b : ℕ, (if a > b then b else a) = min a b := by
    intro a b
    split <;> omega
  refine ⟨?_, ?_, ?_, ?_, hrel⟩ <;>
    (unfold get_next_buffer
     simp only [hpcm, Bool.true_eq_false, if_false, reduceIte]) <;>
    by_cases hfi : inS.frames_in = 0 <;>
    by_cases hrs : env.read_status = 0 <;>
    simp [hfi, hrs, hmin]

theorem buffer_provider_bridge_witness :
    (((get_next_buffer gnbOkEnv sampleIn 100).did_pcm_read = true ↔
        sampleIn.frames_in = 0) ∧
      (get_next_buffer gnbOkEnv sampleIn 100).frame_count =
        min 100 (get_next_buffer gnbOkEnv sampleIn 100).inS.frames_in ∧
      ((get_next_buffer gnbOkEnv sampleIn 100).status = 0 →
        (get_next_buffer gnbOkEnv sampleIn 100).offset =
          some (sampleIn.pcm_config.period_size -
            (get_next_buffer gnbOkEnv sampleIn 100).inS.frames_in)) ∧
      ((get_next_buffer gnbOkEnv sampleIn 100).did_pcm_read = true →
        (get_next_buffer gnbOkEnv sampleIn 100).status = 0 →
        (get_next_buffer gnbOkEnv sampleIn 100).inS.frames_in =
          sampleIn.pcm_config.period_size) ∧
      (∀ s : StreamIn, ∀ c : ℕ, c ≤ s.frames_in →
        (release_buffer s c).frames_in + c = s.frames_in)) :=
  buffer_provider_bridge gnbOkEnv sampleIn 100 rfl

/-- **C4**: whenever `start_output_stream` runs with an input session
active at a rate from a different rate family than the freshly selected
output rate, the input session is standby'd (PCM closed, `active_in`
cleared) strictly before the output PCM open is attempted — and
symmetrically for `start_input_stream` against an active output
session. -/
theorem rate_family_exclusion_on_start
    (envO envI : StartEnv) (adevO adevI : AudioDevice) (out0 : StreamOut) (in0 : StreamIn)
    (inA : StreamIn) (outA : StreamOut)
    (hO1 : adevO.active_in = some inA) (hO2 : inA.standby = false)
    (hO3 : rateIncompatible
      (if adevO.out_device &&& AUDIO_DEVICE_OUT_ALL_SCO ≠ 0 then pcm_config_sco
       else pcm_config_out).rate inA.pcm_config.rate = true)
    (hI1 : adevI.active_out = some outA) (hI2 : outA.standby = false)
    (hI3 : rateIncompatible
      (if adevI.in_device &&& AUDIO_DEVICE_IN_ALL_SCO ≠ 0 then pcm_config_sco
       else pcm_config_in).rate outA.pcm_config.rate = true) :
    ((start_output_stream envO adevO out0).trace.take 2 = [Ev.inStandby, Ev.outPcmOpen] ∧
     (start_output_stream envO adevO out0).adev.active_in = none ∧
     (start_output_stream envO adevO out0).inAfter =
       some { inA with
         pcm := false
         resampler := false
         proc_out_frames := 0
         standby := true }) ∧
    ((start_input_stream envI adevI in0).trace.take 2 = [Ev.outStandby, Ev.inPcmOpen] ∧
     (start_input_stream envI adevI in0).adev.active_out = none ∧
     (start_input_stream envI adevI in0).outAfter =
       some { outA with
         pcm := false
         resampler := false
         standby := true }) := by
  constructor
  · unfold start_output_stream
    by_cases hs : adevO.out_device &&& AUDIO_DEVICE_OUT_ALL_SCO ≠ 0
    case pos =>
      simp only [if_pos hs] at hO3 ⊢
      rw [hO1]
      simp only [hO3, if_true, do_in_standby, hO2, Bool.false_eq_true, reduceIte,
        if_pos rfl]
      rcases envO.pcm_open with _ | b
      · simp
      · rcases b <;> simp
    case neg =>
      simp only [if_neg hs] at hO3 ⊢
      rw [hO1]
      simp only [hO3, if_true, do_in_standby, hO2, Bool.false_eq_true, reduceIte,
        if_pos rfl]
      rcases envO.pcm_open with _ | b
      · simp
      · rcases b <;> simp
  · unfold start_input_stream
    by_cases hs : adevI.in_device &&& AUDIO_DEVICE_IN_ALL_SCO ≠ 0
    case pos =>
      simp only [if_pos hs] at hI3 ⊢
      rw [hI1]
      simp only [hI3, if_true, do_out_standby, hI2, Bool.false_eq_true, reduceIte,
        if_pos rfl]
      rcases envI.pcm_open with _ | b
      · simp
      · rcases b <;> simp
    case neg =>
      simp only [if_neg hs] at hI3 ⊢
      rw [hI1]
      simp only [hI3, if_true, do_out_standby, hI2, Bool.false_eq_true, reduceIte,
        if_pos rfl]
      rcases envI.pcm_open with _ | b
      · simp
      · rcases b <;> simp

theorem rate_family_exclusion_on_start_witness :
    (((start_output_stream { pcm_open := some true } devActiveIn sampleOut).trace.take 2 =
        [Ev.inStandby, Ev.outPcmOpen] ∧
      (start_output_stream { pcm_open := some true } devActiveIn sampleOut).adev.active_in =
        none ∧
      (start_output_stream { pcm_open := some true } devActiveIn sampleOut).inAfter =
        some { in44 with
          pcm := false
          resampler := false
          proc_out_frames := 0
          standby := true }) ∧
     ((start_input_stream { pcm_open := some true } devActiveOut sampleIn).trace.take 2 =
        [Ev.outStandby, Ev.inPcmOpen] ∧
      (start_input_stream { pcm_open := some true } devActiveOut sampleIn).adev.active_out =
        none ∧
      (start_input_stream { pcm_open := some true } devActiveOut sampleIn).outAfter =
        some { out44 with
          pcm := false
          resampler := false
          standby := true })) :=
  rate_family_exclusion_on_start { pcm_open := some true } { pcm_open := some true }
    devActiveIn devActiveOut sampleOut sampleIn in44 out44
    rfl rfl (by decide) rfl rfl (by decide)

/-- Helper: across the `process_frames` loop, the output carry-over either
ends strictly below the bound `C` on what one effect call can produce, or
is left untouched. -/
theorem pfLoop_proc_out_lt (env : PfEnv) (frames_rq frames : ℕ) (C : ℕ)
    (heff : ∀ i, (env.effect i).2 ≤ C) :
    ∀ fuel i frames_wr st,
      (pfLoop env frames_rq frames fuel i frames_wr st).2.proc_out_frames < C ∨
      (pfLoop env frames_rq frames fuel i frames_wr st).2.proc_out_frames =
        st.proc_out_frames := by
  intro fuel
  induction fuel with
  | zero =>
    intro i fw st
    rw [pfLoop]
    split
    · exact Or.inr rfl
    · exact Or.inr rfl
  | succ fuel ih =>
    intro i fw st
    rw [pfLoop]
    split
    case isFalse => exact Or.inr rfl
    case isTrue hlt =>
      dsimp only
      split
      case h_1 e heq => exact Or.inr rfl
      case h_2 st' heq =>
        have hpo : st'.proc_out_frames = st.proc_out_frames := by
          split at heq
          · split at heq
            · exact absurd heq (by simp)
            · injection heq with h
              rw [← h]
          · injection heq with h
            rw [← h]
        split
        · rcases ih (i + 1) fw _ with h | h
          · exact Or.inl h
          · exact Or.inr (h.trans hpo)
        · split
          · rcases ih (i + 1) _ _ with h | h
            · exact Or.inl h
            · exact Or.inr (h.trans hpo)
          · rcases ih (i + 1) _ _ with h | h
            · exact Or.inl h
            · left
              rw [h]
              have hC := heff i
              dsimp only
              omega


/-- **C10**: after every `process_frames` call that satisfies the caller's
full request, the output carry-over `proc_out_frames` is strictly below
one 10 ms chunk (`rate / 100`), so the unconditional carry-over copy at
the start of the next call writes at most one chunk. -/
theorem process_frames_carry_lt_chunk (env : PfEnv) (rate : ℕ) (st0 : PfState)
    (frames fuel : ℕ) (hrate : 100 ≤ rate)
    (heff : ∀ i, (env.effect i).2 ≤ rate / 100)
    (_hsat : (process_frames env rate st0 frames fuel).1 = (frames : ℤ)) :
    (process_frames env rate st0 frames fuel).2.proc_out_frames < rate / 100 := by
  have hC : 1 ≤ rate / 100 := by
    have := Nat.div_le_div_right (c := 100) hrate
    simpa using this
  unfold process_frames at _hsat ⊢
  rcases pfLoop_proc_out_lt env _ frames _ heff fuel 0 _ _ with h | h
  · exact h
  · rw [h]
    split
    · dsimp only
      omega
    · next h0 =>
      rw [not_ne_iff] at h0
      dsimp only
      omega

theorem process_frames_carry_lt_chunk_witness :
    (process_frames pfOkEnv 48000 { proc_frames_in := 0, proc_out_frames := 0 } 100 5).2.proc_out_frames <
      48000 / 100 :=
  process_frames_carry_lt_chunk pfOkEnv 48000 _ 100 5 (by decide) (fun _ => Nat.le.refl)
    (by decide)

/-- Helper: the pacing loop's issued sleeps sum to at most
`MAX_WRITE_SLEEP_US` minus the time already accounted for. -/
theorem paceLoop_sum_le (avail : ℕ → Option ℤ) (b r cur : ℤ) :
    ∀ fuel i total, total ≤ MAX_WRITE_SLEEP_US →
      (paceLoop avail b r cur fuel i total).1.sum ≤ MAX_WRITE_SLEEP_US - total := by
  intro fuel
  induction fuel with
  | zero =>
    intro i total ht
    rw [paceLoop]
    simpa using ht
  | succ fuel ih =>
    intro i total ht
    rw [paceLoop]
    cases h : avail i with
    | none => simp; omega
    | some av =>
      dsimp only
      split
      case isFalse => simp; omega
      case isTrue hk =>
        split
        case isTrue hmin => simp; omega
        case isFalse hmin =>
          split
          case isTrue hcap =>
            rw [if_neg (by omega)]
            have hrec := ih (i + 1) _ hcap
            simp only [List.sum_cons]
            omega
          case isFalse hcap =>
            rw [if_pos (by omega)]
            simp only [List.sum_cons, List.sum_nil]
            omega

/-- Helper: every pacing sleep except possibly the last is at least
`MIN_WRITE_SLEEP_US`. -/
theorem paceLoop_dropLast_ge_min (avail : ℕ → Option ℤ) (b r cur : ℤ) :
    ∀ fuel i total, ∀ s ∈ (paceLoop avail b r cur fuel i total).1.dropLast,
      MIN_WRITE_SLEEP_US ≤ s := by
  have hstep : ∀ (a : ℤ) (l : List ℤ), (∀ s ∈ l.dropLast, MIN_WRITE_SLEEP_US ≤ s) →
      MIN_WRITE_SLEEP_US ≤ a → ∀ s ∈ (a :: l).dropLast, MIN_WRITE_SLEEP_US ≤ s := by
    intro a l hl ha s hs
    cases l with
    | nil => simp at hs
    | cons c t =>
      rw [List.dropLast_cons₂] at hs
      rcases List.mem_cons.mp hs with rfl | hs
      · exact ha
      · exact hl s hs
  intro fuel
  induction fuel with
  | zero =>
    intro i total s hs
    rw [paceLoop] at hs
    simp at hs
  | succ fuel ih =>
    intro i total
    rw [paceLoop]
    cases h : avail i with
    | none => simp
    | some av =>
      dsimp only
      split
      case isFalse => simp
      case isTrue hk =>
        split
        case isTrue hmin => simp
        case isFalse hmin =>
          split
          case isTrue hcap =>
            rw [if_neg (by omega)]
            exact hstep _ _ (ih (i + 1) _) (by omega)
          case isFalse hcap =>
            simp

/-- Helper: a failed timestamp query makes the pacing loop treat the
queued count as zero and exit at once, sleeping nothing. -/
theorem paceLoop_fail_exit (avail : ℕ → Option ℤ) (b r cur : ℤ) (fuel i : ℕ) (total : ℤ)
    (h : avail i = none) :
    paceLoop avail b r cur (fuel + 1) i total = ([], 0) := by
  rw [paceLoop, h]


/-- Helper: the pacing sleeps of an active `out_write` are empty (SCO
route) or exactly one `paceLoop` run started with a zero total. -/
theorem out_write_active_pace_eq (env : OutWriteEnv) (fuel : ℕ) (adev : AudioDevice)
    (out1 : StreamOut) (bytes : ℕ) :
    (out_write_active env fuel adev out1 bytes).pace_sleeps = [] ∨
    ∃ b r c, (out_write_active env fuel adev out1 bytes).pace_sleeps =
      (paceLoop env.avail b r c fuel 0 0).1 := by
  by_cases hsco : adev.out_device &&& AUDIO_DEVICE_OUT_ALL_SCO ≠ 0
  · left
    unfold out_write_active
    simp [hsco]
    split <;> rfl
  · right
    unfold out_write_active
    simp only [hsco, not_false_eq_true, reduceIte, if_true, if_false]
    split <;> exact ⟨_, _, _, rfl⟩

/-- Helper: ditto for the full `out_write` entry point. -/
theorem out_write_pace_eq (env : OutWriteEnv) (fuel : ℕ) (adev : AudioDevice)
    (out : StreamOut) (bytes : ℕ) :
    (out_write env fuel adev out bytes).pace_sleeps = [] ∨
    ∃ b r c, (out_write env fuel adev out bytes).pace_sleeps =
      (paceLoop env.avail b r c fuel 0 0).1 := by
  unfold out_write
  by_cases h1 : out.standby
  · simp only [h1, if_true]
    split
    · left; rfl
    · exact out_write_active_pace_eq env fuel _ _ bytes
  · simp only [h1, if_false, reduceIte]
    exact out_write_active_pace_eq env fuel adev out bytes


/-- **C5 counterexample**: a concrete `out_write` call (non-SCO, stream
active, queued frames 2032 then 1264 against threshold 1024) issues the
sleeps `[21000, 333]`; the final capped sleep of 333 microseconds is
shorter than `MIN_WRITE_SLEEP_US`, refuting the claim that no sleep
below the floor is ever issued. -/
theorem out_write_issues_short_sleep :
    (out_write paceCxEnv 12 sampleDev sampleOut 4096).pace_sleeps = [21000, 333] ∧
    (333 : ℤ) < MIN_WRITE_SLEEP_US := by
  constructor
  · decide
  · decide

/-- **C5 (amended)**: in `out_write`'s pacing loop, every issued sleep
except possibly the final one is at least `MIN_WRITE_SLEEP_US` (the
final sleep may be truncated to what remains of the cumulative budget);
the cumulative time slept never exceeds `MAX_WRITE_SLEEP_US`; and a
failed timestamp query zeroes the queued count and exits the loop
immediately without sleeping. -/
theorem out_write_pacing_caps (env : OutWriteEnv) (fuel : ℕ) (adev : AudioDevice)
    (out : StreamOut) (bytes : ℕ) :
    (out_write env fuel adev out bytes).pace_sleeps.sum ≤ MAX_WRITE_SLEEP_US ∧
    (∀ s ∈ (out_write env fuel adev out bytes).pace_sleeps.dropLast,
      MIN_WRITE_SLEEP_US ≤ s) ∧
    (∀ (avail : ℕ → Option ℤ) (b r c : ℤ) (f i : ℕ) (t : ℤ), avail i = none →
      paceLoop avail b r c (f + 1) i t = ([], 0)) := by
  refine ⟨?_, ?_, paceLoop_fail_exit⟩
  · rcases out_write_pace_eq env fuel adev out bytes with h | ⟨b, r, c, h⟩
    · rw [h]
      simp only [List.sum_nil]
      decide
    · rw [h]
      have := paceLoop_sum_le env.avail b r c fuel 0 0 (by decide)
      omega
  · rcases out_write_pace_eq env fuel adev out bytes with h | ⟨b, r, c, h⟩
    · rw [h]
      simp
    · rw [h]
      exact paceLoop_dropLast_ge_min env.avail b r c fuel 0 0

theorem out_write_pacing_caps_witness :
    ((out_write paceCxEnv 12 sampleDev sampleOut 4096).pace_sleeps.sum ≤
        MAX_WRITE_SLEEP_US ∧
      (∀ s ∈ (out_write paceCxEnv 12 sampleDev sampleOut 4096).pace_sleeps.dropLast,
        MIN_WRITE_SLEEP_US ≤ s) ∧
      (∀ (avail : ℕ → Option ℤ) (b r c : ℤ) (f i : ℕ) (t : ℤ), avail i = none →
        paceLoop avail b r c (f + 1) i t = ([], 0))) :=
  out_write_pacing_caps paceCxEnv 12 sampleDev sampleOut 4096

/-- Helper: when every reported avail count lies in `[0, b]`, the
`kernel_frames` the pacing loop leaves behind lies in `[0, b]` as well
(a failed query or exhausted fuel leaves 0). -/
theorem paceLoop_kernel_range (avail : ℕ → Option ℤ) (b r c : ℤ) (hb : 0 ≤ b)
    (hav : ∀ i a, avail i = some a → 0 ≤ a ∧ a ≤ b) :
    ∀ fuel i total, 0 ≤ (paceLoop avail b r c fuel i total).2 ∧
      (paceLoop avail b r c fuel i total).2 ≤ b := by
  intro fuel
  induction fuel with
  | zero =>
    intro i total
    rw [paceLoop]
    exact ⟨le_refl 0, hb⟩
  | succ fuel ih =>
    intro i total
    rw [paceLoop]
    cases h : avail i with
    | none => exact ⟨le_refl 0, hb⟩
    | some av =>
      have hav2 := hav i av h
      dsimp only
      split
      · split
        · constructor <;> omega
        · split
          · exact ih (i + 1) _
          · constructor <;> omega
      · constructor <;> omega

/-- Helper: the threshold-adjustment block of lines 1101-1116, on a
512-frame period with a target of one short (1024) or one long (4096)
disposition, keeps `cur_write_threshold` in `[0, 4096]` and either moves
it toward the target by at most 128 frames without overshooting, or
performs the fast-recovery snap, whose trigger condition and value are
exactly those of lines 1111-1115. -/
theorem adjustThreshold_spec (wt cur k : ℤ) (hwt : wt = 1024 ∨ wt = 4096)
    (hc0 : 0 ≤ cur) (hc1 : cur ≤ 4096) (hk0 : 0 ≤ k) (hk1 : k ≤ 4096) :
    (0 ≤ adjustThreshold 512 wt cur k ∧ adjustThreshold 512 wt cur k ≤ 4096) ∧
    ((min cur wt ≤ adjustThreshold 512 wt cur k ∧
      adjustThreshold 512 wt cur k ≤ max cur wt ∧
      adjustThreshold 512 wt cur k - cur ≤ 128 ∧
      cur - adjustThreshold 512 wt cur k ≤ 128) ∨
     (cur = wt ∧ k < wt ∧ wt - k > 1024 ∧
      adjustThreshold 512 wt cur k = (k.tdiv 512 + 1) * 512 + 128)) := by
  have hdiv : k.tdiv 512 = k / 512 := Int.tdiv_eq_ediv hk0 (by norm_num)
  unfold adjustThreshold
  dsimp only
  rw [show ((512 : ℤ).tdiv 4) = 128 from by decide,
    show ((512 : ℤ) * OUT_SHORT_PERIOD_COUNT) = 1024 from by decide, hdiv]
  split
  · split
    · exact ⟨by omega, Or.inl (by omega)⟩
    · exact ⟨by omega, Or.inl (by omega)⟩
  · split
    · split
      · exact ⟨by omega, Or.inl (by omega)⟩
      · exact ⟨by omega, Or.inl (by omega)⟩
    · split
      · rcases hwt with rfl | rfl
        · omega
        · refine ⟨⟨by omega, by omega⟩, Or.inr ⟨by omega, by omega, by omega, rfl⟩⟩
      · exact ⟨⟨by omega, by omega⟩, Or.inl (by omega)⟩

/-- Helper: on a non-SCO route, an active `out_write` updates
`cur_write_threshold` by `adjustThreshold` applied to the post-disposition
state `out2_of` and the pacing loop's final `kernel_frames`. -/
theorem out_write_active_threshold_spec (env : OutWriteEnv) (fuel : ℕ)
    (adev : AudioDevice) (out1 : StreamOut) (bytes : ℕ)
    (hsco : adev.out_device &&& AUDIO_DEVICE_OUT_ALL_SCO = 0) :
    (out_write_active env fuel adev out1 bytes).out.cur_write_threshold =
      adjustThreshold ((out2_of adev out1).pcm_config.period_size : ℤ)
        (out2_of adev out1).write_threshold (out2_of adev out1).cur_write_threshold
        (paceKernel env fuel (out2_of adev out1)) ∧
    (out_write_active env fuel adev out1 bytes).out.write_threshold =
      (out2_of adev out1).write_threshold ∧
    (out_write_active env fuel adev out1 bytes).kernel_frames =
      paceKernel env fuel (out2_of adev out1) := by
  have hs : ¬ (adev.out_device &&& AUDIO_DEVICE_OUT_ALL_SCO ≠ 0) := by simp [hsco]
  unfold out_write_active out2_of paceKernel
  simp only [hs, not_false_eq_true, true_and, reduceIte, if_true]
  split <;> exact ⟨rfl, rfl, rfl⟩

/-- Helper: the disposition recomputation preserves the PCM config and
(away from standby exit) `cur_write_threshold`, and always leaves
`write_threshold` at one short or one long disposition. -/
theorem out2_facts (adev : AudioDevice) (out1 : StreamOut)
    (hbt : out1.buffer_type ≠ BufferType.unknown)
    (hcfg : out1.pcm_config = pcm_config_out)
    (hwt : out1.write_threshold = OUT_PERIOD_SIZE *
      (if out1.buffer_type = BufferType.long then OUT_LONG_PERIOD_COUNT
       else OUT_SHORT_PERIOD_COUNT)) :
    (out2_of adev out1).pcm_config = pcm_config_out ∧
    (out2_of adev out1).cur_write_threshold = out1.cur_write_threshold ∧
    ((out2_of adev out1).write_threshold = 1024 ∨
      (out2_of adev out1).write_threshold = 4096) := by
  unfold out2_of outUpdateBufferType
  split
  · refine ⟨hcfg, by simp [hbt], ?_⟩
    rw [hcfg]
    split
    · right
      dsimp only
      decide
    · left
      dsimp only
      decide
  · refine ⟨hcfg, rfl, ?_⟩
    rw [hwt]
    split
    · right; decide
    · left; decide

/-- Helper: `paceKernel` lies in `[0, 4096]` for the main output config
when the device only ever reports avail counts within the buffer. -/
theorem paceKernel_range (env : OutWriteEnv) (fuel : ℕ) (o2 : StreamOut)
    (hcfg : o2.pcm_config = pcm_config_out)
    (hav : ∀ i a, env.avail i = some a → 0 ≤ a ∧ a ≤ 4096) :
    0 ≤ paceKernel env fuel o2 ∧ paceKernel env fuel o2 ≤ 4096 := by
  unfold paceKernel
  rw [hcfg]
  have h : ((pcm_config_out.period_size * pcm_config_out.period_count : ℕ) : ℤ) = 4096 := by
    decide
  rw [h]
  exact paceLoop_kernel_range env.avail 4096 _ _ (by norm_num) hav fuel 0 0

/-- **C1**: for every `out_write` call on a non-SCO route with the stream
active (already started, disposition known, threshold state within its
invariants) and a device reporting avail counts within the 4096-frame
buffer, `cur_write_threshold` stays within `[0, WRITE_THRESHOLD_MAX]`
and either moves toward `write_threshold` by at most one quarter period
(128 frames) without overshooting, or takes the fast-recovery snap,
which fires only when `kernel_frames` is below `write_threshold` by more
than `OUT_PERIOD_SIZE * OUT_SHORT_PERIOD_COUNT` frames and sets it to
`(kernel_frames / period_size + 1) * period_size + period_size / 4`. -/
theorem out_write_threshold_convergence (env : OutWriteEnv) (fuel : ℕ)
    (adev : AudioDevice) (out : StreamOut) (bytes : ℕ)
    (hsby : out.standby = false)
    (hsco : adev.out_device &&& AUDIO_DEVICE_OUT_ALL_SCO = 0)
    (hcfg : out.pcm_config = pcm_config_out)
    (hbt : out.buffer_type ≠ BufferType.unknown)
    (hwt : out.write_threshold = OUT_PERIOD_SIZE *
      (if out.buffer_type = BufferType.long then OUT_LONG_PERIOD_COUNT
       else OUT_SHORT_PERIOD_COUNT))
    (hc0 : 0 ≤ out.cur_write_threshold)
    (hc1 : out.cur_write_threshold ≤ WRITE_THRESHOLD_MAX)
    (hav : ∀ i a, env.avail i = some a → 0 ≤ a ∧ a ≤ 4096) :
    (0 ≤ (out_write env fuel adev out bytes).out.cur_write_threshold ∧
      (out_write env fuel adev out bytes).out.cur_write_threshold ≤ WRITE_THRESHOLD_MAX) ∧
    ((min out.cur_write_threshold (out_write env fuel adev out bytes).out.write_threshold ≤
        (out_write env fuel adev out bytes).out.cur_write_threshold ∧
      (out_write env fuel adev out bytes).out.cur_write_threshold ≤
        max out.cur_write_threshold (out_write env fuel adev out bytes).out.write_threshold ∧
      (out_write env fuel adev out bytes).out.cur_write_threshold -
        out.cur_write_threshold ≤ OUT_PERIOD_SIZE.tdiv 4 ∧
      out.cur_write_threshold -
        (out_write env fuel adev out bytes).out.cur_write_threshold ≤
          OUT_PERIOD_SIZE.tdiv 4) ∨
     (out.cur_write_threshold = (out_write env fuel adev out bytes).out.write_threshold ∧
      (out_write env fuel adev out bytes).kernel_frames <
        (out_write env fuel adev out bytes).out.write_threshold ∧
      (out_write env fuel adev out bytes).out.write_threshold -
        (out_write env fuel adev out bytes).kernel_frames >
          OUT_PERIOD_SIZE * OUT_SHORT_PERIOD_COUNT ∧
      (out_write env fuel adev out bytes).out.cur_write_threshold =
        ((out_write env fuel adev out bytes).kernel_frames.tdiv OUT_PERIOD_SIZE + 1) *
          OUT_PERIOD_SIZE + OUT_PERIOD_SIZE.tdiv 4)) := by
  have hr : out_write env fuel adev out bytes = out_write_active env fuel adev out bytes := by
    unfold out_write
    simp [hsby]
  rw [hr]
  obtain ⟨hA, hB, hK⟩ := out_write_active_threshold_spec env fuel adev out bytes hsco
  rw [hA, hB, hK]
  obtain ⟨hpcm, hcur2, hwt2⟩ := out2_facts adev out hbt hcfg hwt
  obtain ⟨hk0, hk1⟩ := paceKernel_range env fuel _ hpcm hav
  rw [hpcm, hcur2]
  rw [show ((pcm_config_out.period_size : ℕ) : ℤ) = 512 from by decide]
  simp only [show OUT_PERIOD_SIZE.tdiv 4 = (128 : ℤ) from by decide,
    show WRITE_THRESHOLD_MAX = (4096 : ℤ) from by decide,
    show OUT_PERIOD_SIZE * OUT_SHORT_PERIOD_COUNT = (1024 : ℤ) from by decide,
    show OUT_PERIOD_SIZE = (512 : ℤ) from rfl]
  have hc1' : out.cur_write_threshold ≤ 4096 := by
    rw [show WRITE_THRESHOLD_MAX = (4096 : ℤ) from by decide] at hc1
    exact hc1
  exact adjustThreshold_spec _ _ _ hwt2 hc0 hc1' hk0 hk1

theorem out_write_threshold_convergence_witness :
    ((0 ≤ (out_write underrunEnv 4 sampleDev sampleOut 4096).out.cur_write_threshold ∧
      (out_write underrunEnv 4 sampleDev sampleOut 4096).out.cur_write_threshold ≤
        WRITE_THRESHOLD_MAX) ∧
    ((min sampleOut.cur_write_threshold
        (out_write underrunEnv 4 sampleDev sampleOut 4096).out.write_threshold ≤
        (out_write underrunEnv 4 sampleDev sampleOut 4096).out.cur_write_threshold ∧
      (out_write underrunEnv 4 sampleDev sampleOut 4096).out.cur_write_threshold ≤
        max sampleOut.cur_write_threshold
          (out_write underrunEnv 4 sampleDev sampleOut 4096).out.write_threshold ∧
      (out_write underrunEnv 4 sampleDev sampleOut 4096).out.cur_write_threshold -
        sampleOut.cur_write_threshold ≤ OUT_PERIOD_SIZE.tdiv 4 ∧
      sampleOut.cur_write_threshold -
        (out_write underrunEnv 4 sampleDev sampleOut 4096).out.cur_write_threshold ≤
          OUT_PERIOD_SIZE.tdiv 4) ∨
     (sampleOut.cur_write_threshold =
        (out_write underrunEnv 4 sampleDev sampleOut 4096).out.write_threshold ∧
      (out_write underrunEnv 4 sampleDev sampleOut 4096).kernel_frames <
        (out_write underrunEnv 4 sampleDev sampleOut 4096).out.write_threshold ∧
      (out_write underrunEnv 4 sampleDev sampleOut 4096).out.write_threshold -
        (out_write underrunEnv 4 sampleDev sampleOut 4096).kernel_frames >
          OUT_PERIOD_SIZE * OUT_SHORT_PERIOD_COUNT ∧
      (out_write underrunEnv 4 sampleDev sampleOut 4096).out.cur_write_threshold =
        ((out_write underrunEnv 4 sampleDev sampleOut 4096).kernel_frames.tdiv
            OUT_PERIOD_SIZE + 1) * OUT_PERIOD_SIZE + OUT_PERIOD_SIZE.tdiv 4))) :=
  out_write_threshold_convergence underrunEnv 4 sampleDev sampleOut 4096 rfl
    (by decide) rfl (by decide) (by decide) (by decide) (by decide)
    (fun i a h => by
      simp only [underrunEnv] at h
      injection h with h
      omega)

end AudioHw
